import Mathlib

/-!
Shallow embedding of the TaraAura fragment-shader core (src/script.js, with the
Basic/Fade variant of src/unnamed/part_001 where cited).  GLSL floats are
modelled as real numbers; `texture2D(tDiffuse, ·).a` is an arbitrary function
`texA : ℝ × ℝ → ℝ` supplied by the caller (the uploaded image).
-/

noncomputable section

namespace TaraAura

/-! ## GLSL built-ins -/

/-- GLSL `fract(x) = x - floor(x)`. -/
def fract (x : ℝ) : ℝ := Int.fract x

/-- GLSL `clamp(x, lo, hi) = min(max(x, lo), hi)`. -/
def clampG (x lo hi : ℝ) : ℝ := min (max x lo) hi

/-- GLSL `mix(x, y, a) = x*(1-a) + y*a`. -/
def mixG (x y a : ℝ) : ℝ := x * (1 - a) + y * a

/-- GLSL `step(edge, x)`: 0 if `x < edge`, else 1. -/
def stepG (edge x : ℝ) : ℝ := if x < edge then 0 else 1

/-- GLSL `smoothstep(e0, e1, x)`: Hermite interpolation of the clamped ramp. -/
def smoothstepG (e0 e1 x : ℝ) : ℝ :=
  let t := clampG ((x - e0) / (e1 - e0)) 0 1
  t * t * (3 - 2 * t)

/-- GLSL `dot` on `vec2`. -/
def dot2 (a b : ℝ × ℝ) : ℝ := a.1 * b.1 + a.2 * b.2

/-- GLSL `length` on `vec2`. -/
def length2 (v : ℝ × ℝ) : ℝ := Real.sqrt (v.1 ^ 2 + v.2 ^ 2)

/-- GLSL `distance` on `vec2`. -/
def distance2 (a b : ℝ × ℝ) : ℝ := length2 (a.1 - b.1, a.2 - b.2)

/-- GLSL `normalize` on `vec2`. -/
def normalize2 (v : ℝ × ℝ) : ℝ × ℝ := (v.1 / length2 v, v.2 / length2 v)

/-- GLSL two-argument `atan(y, x)` (atan2), range `(-π, π]`. -/
def atan2 (y x : ℝ) : ℝ :=
  if 0 < x then Real.arctan (y / x)
  else if x < 0 then
    (if 0 ≤ y then Real.arctan (y / x) + Real.pi else Real.arctan (y / x) - Real.pi)
  else if 0 < y then Real.pi / 2
  else if y < 0 then -(Real.pi / 2)
  else 0

/-! ## Noise stack (src/script.js lines 63-84, identical in part_001) -/

/-- `hash(p) = fract(sin(dot(p, vec2(12.123, 78.233))) * 43758.5453)`. -/
def hash (p : ℝ × ℝ) : ℝ :=
  fract (Real.sin (dot2 p (12.123, 78.233)) * 43758.5453)

/-- Value noise: bilinear blend of the four hashed unit-cell corners with
per-axis weighting `f*f*(3-2*f)`. -/
def noise (p : ℝ × ℝ) : ℝ :=
  let ix : ℝ := (⌊p.1⌋ : ℤ)
  let iy : ℝ := (⌊p.2⌋ : ℤ)
  let fx := fract p.1
  let fy := fract p.2
  let ux := fx * fx * (3 - 2 * fx)
  let uy := fy * fy * (3 - 2 * fy)
  mixG (mixG (hash (ix, iy)) (hash (ix + 1, iy)) ux)
       (mixG (hash (ix, iy + 1)) (hash (ix + 1, iy + 1)) ux) uy

/-- The `fbm` loop body: `n` remaining octaves, current coordinate `p`,
current amplitude `a`; each step doubles the frequency and halves the
amplitude. -/
def fbmGo : ℕ → ℝ × ℝ → ℝ → ℝ
  | 0, _, _ => 0
  | n + 1, p, a => a * noise p + fbmGo n (p.1 * 2, p.2 * 2) (a * 0.5)

/-- `fbm`: 5 octaves, initial amplitude 0.5. -/
def fbm (p : ℝ × ℝ) : ℝ := fbmGo 5 p 0.5

/-! ## Range lemmas for the primitives -/

theorem fract_mem (x : ℝ) : 0 ≤ fract x ∧ fract x < 1 :=
  ⟨Int.fract_nonneg x, Int.fract_lt_one x⟩

theorem hash_mem (p : ℝ × ℝ) : 0 ≤ hash p ∧ hash p < 1 :=
  fract_mem _

theorem clampG_mem (x lo hi : ℝ) (h : lo ≤ hi) :
    lo ≤ clampG x lo hi ∧ clampG x lo hi ≤ hi := by
  constructor
  · exact le_min (le_max_right x lo) h
  · exact min_le_right _ _

/-- The Hermite weight `t*t*(3-2*t)` sends `[0,1]` into `[0,1]`. -/
theorem hermite_mem {t : ℝ} (h0 : 0 ≤ t) (h1 : t ≤ 1) :
    0 ≤ t * t * (3 - 2 * t) ∧ t * t * (3 - 2 * t) ≤ 1 := by
  constructor
  · nlinarith
  · nlinarith [sq_nonneg (1 - t)]

theorem smoothstepG_mem (e0 e1 x : ℝ) :
    0 ≤ smoothstepG e0 e1 x ∧ smoothstepG e0 e1 x ≤ 1 := by
  have h := clampG_mem ((x - e0) / (e1 - e0)) 0 1 (by norm_num)
  exact hermite_mem h.1 h.2

theorem mixG_mem {x y a : ℝ} (hx0 : 0 ≤ x) (hx1 : x ≤ 1) (hy0 : 0 ≤ y)
    (hy1 : y ≤ 1) (ha0 : 0 ≤ a) (ha1 : a ≤ 1) :
    0 ≤ mixG x y a ∧ mixG x y a ≤ 1 := by
  unfold mixG
  constructor
  · nlinarith
  · nlinarith

theorem noise_mem (p : ℝ × ℝ) : 0 ≤ noise p ∧ noise p ≤ 1 := by
  unfold noise
  have hfx := fract_mem p.1
  have hfy := fract_mem p.2
  have hux := hermite_mem hfx.1 hfx.2.le
  have huy := hermite_mem hfy.1 hfy.2.le
  have h00 := hash_mem ((⌊p.1⌋ : ℤ), (⌊p.2⌋ : ℤ))
  have h10 := hash_mem (((⌊p.1⌋ : ℤ) : ℝ) + 1, (⌊p.2⌋ : ℤ))
  have h01 := hash_mem ((⌊p.1⌋ : ℤ), ((⌊p.2⌋ : ℤ) : ℝ) + 1)
  have h11 := hash_mem (((⌊p.1⌋ : ℤ) : ℝ) + 1, ((⌊p.2⌋ : ℤ) : ℝ) + 1)
  have hm1 := mixG_mem h00.1 h00.2.le h10.1 h10.2.le hux.1 hux.2
  have hm2 := mixG_mem h01.1 h01.2.le h11.1 h11.2.le hux.1 hux.2
  exact mixG_mem hm1.1 hm1.2 hm2.1 hm2.2 huy.1 huy.2

theorem fbmGo_mem (n : ℕ) : ∀ (p : ℝ × ℝ) (a : ℝ), 0 ≤ a →
    0 ≤ fbmGo n p a ∧ fbmGo n p a ≤ a * (2 - 2 * (1 / 2) ^ n) := by
  induction n with
  | zero => intro p a _; simp [fbmGo]
  | succ n ih =>
    intro p a ha
    have hn := noise_mem p
    have ih2 := ih (p.1 * 2, p.2 * 2) (a * 0.5) (by nlinarith)
    unfold fbmGo
    constructor
    · nlinarith [ih2.1]
    · have : a * 0.5 * (2 - 2 * (1 / 2) ^ n) = a * (1 - (1 / 2) ^ n) := by ring
      have hp : ((1 : ℝ) / 2) ^ (n + 1) = (1 / 2) ^ n * (1 / 2) := by ring
      nlinarith [ih2.2, pow_nonneg (by norm_num : (0:ℝ) ≤ 1 / 2) n]

theorem fbm_mem (p : ℝ × ℝ) : 0 ≤ fbm p ∧ fbm p ≤ 1 - (1 / 2) ^ 5 := by
  have h := fbmGo_mem 5 p 0.5 (by norm_num)
  constructor
  · exact h.1
  · calc fbm p ≤ 0.5 * (2 - 2 * (1 / 2) ^ 5) := h.2
    _ = 1 - (1 / 2) ^ 5 := by norm_num

/-! ## Timeline driver (src/script.js lines 106-108) -/

/-- `growthPhase = smoothstep(0.0, 8.0, uTime)`. -/
def growthPhase (t : ℝ) : ℝ := smoothstepG 0 8 t

/-- `lockPhase = smoothstep(60.0, 62.0, uTime)`. -/
def lockPhase (t : ℝ) : ℝ := smoothstepG 60 62 t

/-- `activeTime = uTime * (1.0 - lockPhase * 0.95)`. -/
def activeTime (t : ℝ) : ℝ := t * (1 - lockPhase t * 0.95)

/-! ## Uniform parameters (slider values; the core must not assume they are
clamped to the UI range) -/

structure Params where
  uAuraSize : ℝ
  uStrength : ℝ
  uSwim : ℝ
  uBreath : ℝ
  uConv : ℝ
  uCore : ℝ
  uFlameHeight : ℝ
  uFlameTemp : ℝ
  uDropSpeed : ℝ
  uDropSize : ℝ
  uDropDir : ℝ × ℝ

/-- The slider defaults of src/script.js (the `params` object). -/
def defaultParams : Params :=
  ⟨0.20, 1.5, 0.5, 0.3, 0.5, 1.0, 0.5, 0.5, 1.0, 0.5, (0.0, 1.0)⟩

/-- A texture's alpha channel: the uploaded image, an arbitrary function of
the sample coordinate. -/
def TexA : Type := ℝ × ℝ → ℝ

/-! ## Polar helpers shared by the branches (src/script.js lines 113-118) -/

def centerPt : ℝ × ℝ := (0.5, 0.5)

def toCenter (uv : ℝ × ℝ) : ℝ × ℝ := (uv.1 - 0.5, uv.2 - 0.5)

def radiusOf (uv : ℝ × ℝ) : ℝ := length2 (toCenter uv)

def angleOf (uv : ℝ × ℝ) : ℝ := atan2 (toCenter uv).2 (toCenter uv).1

/-- `normAngle = (angle / 6.28318) + 0.5`. -/
def normAngle (uv : ℝ × ℝ) : ℝ := angleOf uv / 6.28318 + 0.5

/-! ## TYPE 0 and 3: Basic and Fade (src/script.js lines 259-279) -/

/-- `noiseVal = fbm(uv * 3.0 + activeTime * uSwim) * 0.1`. -/
def basicNoiseVal (P : Params) (uv : ℝ × ℝ) (t : ℝ) : ℝ :=
  fbm (uv.1 * 3 + activeTime t * P.uSwim, uv.2 * 3 + activeTime t * P.uSwim) * 0.1

/-- The sample offset of iteration `i` of the Basic loop: radial direction
scaled by `maxDist`, breathing factor, plus the shared noise shift. -/
def basicOffset (P : Params) (uv : ℝ × ℝ) (t : ℝ) (i : ℕ) : ℝ × ℝ :=
  let a := (i : ℝ) * 6.28318 / 12
  let maxDist := P.uAuraSize * growthPhase t
  let breath := 1 + Real.sin (activeTime t * 2 * P.uBreath) * 0.15
  (Real.cos a * maxDist * breath + basicNoiseVal P uv t * 0.1,
   Real.sin a * maxDist * breath + basicNoiseVal P uv t * 0.1)

/-- Basic branch: average of the 12 offset texture-alpha samples. -/
def basicAuraAlpha (texA : TexA) (P : Params) (uv : ℝ × ℝ) (t : ℝ) : ℝ :=
  (List.foldl
    (fun s i => s + texA (uv.1 + (basicOffset P uv t i).1, uv.2 + (basicOffset P uv t i).2))
    0 (List.range 12)) / 12

/-- Fade branch (uType 3): the Basic alpha eroded by the smoke mask. -/
def fadeAuraAlpha (texA : TexA) (P : Params) (uv : ℝ × ℝ) (t : ℝ) : ℝ :=
  let b := basicAuraAlpha texA P uv t
  let fadeNoise := fbm (uv.1 * 10, uv.2 * 10 - activeTime t * 0.5)
  let cycle := (Real.sin (activeTime t) + 1) * 0.5
  b * smoothstepG (0.2 + cycle * 0.5) 0.8 (b + fadeNoise * 0.3)

/-! ## TYPE 1: Thangka Flame (src/script.js lines 123-158) -/

/-- The warped polar coordinate `q` of the flame branch. -/
def flameQ (P : Params) (uv : ℝ × ℝ) (t : ℝ) : ℝ × ℝ :=
  let ta := activeTime t
  let polar := (normAngle uv * 6, radiusOf uv)
  (polar.1 + fbm (polar.1 * 3 + ta * 0.5, polar.2 * 3 + ta * 0.5) * 0.2,
   polar.2 - ta * P.uSwim)

/-- Flame border mask before the smoothstep: max alpha over 16 radial samples
whose reach is modulated by `shapeNoise`. -/
def flameBorder (texA : TexA) (P : Params) (uv : ℝ × ℝ) (t : ℝ) : ℝ :=
  let q := flameQ P uv t
  let baseDist := P.uAuraSize * growthPhase t * 2.5
  let shapeNoise := fbm (q.1 * 5, q.2 * 1)
  let reach := baseDist * (0.5 + 1.5 * shapeNoise)
  List.foldl
    (fun m i => max m (texA (uv.1 + Real.cos ((i : ℝ) * 6.28318 / 16) * reach * 0.5,
                             uv.2 + Real.sin ((i : ℝ) * 6.28318 / 16) * reach * 0.5)))
    0 (List.range 16)

/-- Flame branch alpha: `smoothstep(0.1, 0.9, borderMask * detailNoise) * uStrength`. -/
def flameAuraAlpha (texA : TexA) (P : Params) (uv : ℝ × ℝ) (t : ℝ) : ℝ :=
  let q := flameQ P uv t
  let borderMask := smoothstepG 0.1 0.6 (flameBorder texA P uv t)
  let detailNoise := fbm (q.1 * 10, q.2 * 2)
  smoothstepG 0.1 0.9 (borderMask * detailNoise) * P.uStrength

/-! ## TYPE 2: Ripple (src/script.js lines 227-254) -/

def rippleBorder (texA : TexA) (P : Params) (uv : ℝ × ℝ) : ℝ :=
  let maxDist := P.uAuraSize * 2
  List.foldl
    (fun m i => max m (texA (uv.1 + Real.cos ((i : ℝ) * 6.28318 / 8) * maxDist * 0.8,
                             uv.2 + Real.sin ((i : ℝ) * 6.28318 / 8) * maxDist * 0.8)))
    0 (List.range 8)

/-- Ripple branch alpha, including the final `*(1 - alpha)` cut-out. -/
def rippleAuraAlpha (texA : TexA) (P : Params) (uv : ℝ × ℝ) (t : ℝ) : ℝ :=
  let borderMask := smoothstepG 0.1 0.5 (rippleBorder texA P uv)
  let radialMove := radiusOf uv * (10 / P.uDropSize) - activeTime t * P.uDropSpeed * 3
  let fineDetail := fbm (normAngle uv * 10, radialMove * 0.5)
  let cellLocal := fract radialMove
  let dropShape := smoothstepG 0.4 0.5 cellLocal * smoothstepG 0.6 0.5 cellLocal
  let mist := borderMask * dropShape * fineDetail * 2.5
  let dirMask :=
    if 0.1 < length2 P.uDropDir then
      smoothstepG 0 0.5 (dot2 (normalize2 (toCenter uv)) (normalize2 P.uDropDir))
    else 1
  mist * dirMask * P.uStrength * (1 - texA uv)

/-! ## TYPE 4: Droplet (src/script.js lines 163-222) -/

/-- `const float NUM_DROPS = 10.0;` — the size of the droplet pool. -/
def NUM_DROPS : ℕ := 10

/-- `seed = i * 12.345`. -/
def dropSeed (i : ℕ) : ℝ := (i : ℝ) * 12.345

/-- `t = activeTime * uDropSpeed + seed`. -/
def dropT (P : Params) (t : ℝ) (i : ℕ) : ℝ :=
  activeTime t * P.uDropSpeed + dropSeed i

/-- `cycle = fract(t)`. -/
def dropCycle (P : Params) (t : ℝ) (i : ℕ) : ℝ := fract (dropT P t i)

/-- `cycleIdx = floor(t)`. -/
def dropCycleIdx (P : Params) (t : ℝ) (i : ℕ) : ℤ := ⌊dropT P t i⌋

/-- `rndAngle = hash(vec2(seed, cycleIdx)) * 6.28318`. -/
def dropRndAngle (P : Params) (t : ℝ) (i : ℕ) : ℝ :=
  hash (dropSeed i, (dropCycleIdx P t i : ℝ)) * 6.28318

/-- `dropPos = center + vec2(cos(rndAngle), sin(rndAngle)) * travelDist`. -/
def dropPos (P : Params) (t : ℝ) (i : ℕ) : ℝ × ℝ :=
  (0.5 + Real.cos (dropRndAngle P t i) * (dropCycle P t i * 1.5),
   0.5 + Real.sin (dropRndAngle P t i) * (dropCycle P t i * 1.5))

/-- One droplet's contribution: sharp-edged circle times end-of-life fade. -/
def dropCircle (P : Params) (uv : ℝ × ℝ) (t : ℝ) (i : ℕ) : ℝ :=
  let d := distance2 uv (dropPos P t i)
  let currentSize := P.uDropSize * 0.15 * (1.2 - dropCycle P t i)
  smoothstepG currentSize (currentSize - 0.01) d * smoothstepG 1 0.8 (dropCycle P t i)

/-- `dropsAlpha`: max-blend over the droplet pool. -/
def dropsAlpha (P : Params) (uv : ℝ × ℝ) (t : ℝ) : ℝ :=
  List.foldl (fun m i => max m (dropCircle P uv t i)) 0 (List.range NUM_DROPS)

/-- Droplet branch alpha: faint background aura max-blended with the drops. -/
def dropletAuraAlpha (texA : TexA) (P : Params) (uv : ℝ × ℝ) (t : ℝ) : ℝ :=
  let bg := List.foldl
    (fun m i => max m (texA (uv.1 + Real.cos ((i : ℝ) * 6.28318 / 8) * P.uAuraSize,
                             uv.2 + Real.sin ((i : ℝ) * 6.28318 / 8) * P.uAuraSize)))
    0 (List.range 8)
  max (smoothstepG 0.1 0.8 bg * 0.2) (dropsAlpha P uv t * P.uStrength)

/-! ## Effect-type dispatch (the if/else-if chain of `main`) -/

/-- The `uType` dispatch: 1 → Flame, 4 → Droplet, 2 → Ripple, everything else
falls through to Basic, with the Fade erosion applied exactly when
`uType == 3`. -/
def auraAlphaOf (uType : ℤ) (texA : TexA) (P : Params) (uv : ℝ × ℝ) (t : ℝ) : ℝ :=
  if uType = 1 then flameAuraAlpha texA P uv t
  else if uType = 4 then dropletAuraAlpha texA P uv t
  else if uType = 2 then rippleAuraAlpha texA P uv t
  else if uType = 3 then fadeAuraAlpha texA P uv t
  else basicAuraAlpha texA P uv t

/-! ## RGB/HSV conversion (src/script.js lines 86-99)

`K = vec4(0.0, -1.0/3.0, 2.0/3.0, -1.0)`;
`p = mix(vec4(c.bg, K.wz), vec4(c.gb, K.xy), step(c.b, c.g))`;
`q = mix(vec4(p.xyw, c.r), vec4(c.r, p.yzx), step(p.x, c.r))`.
Colors are triples `(r, g, b)`; vec4 intermediates are `(x, y, z, w)`. -/

def rgb2hsvP (c : ℝ × ℝ × ℝ) : ℝ × ℝ × ℝ × ℝ :=
  let s := stepG c.2.2 c.2.1
  (mixG c.2.2 c.2.1 s, mixG c.2.1 c.2.2 s, mixG (-1) 0 s, mixG (2 / 3) (-1 / 3) s)

def rgb2hsvQ (c : ℝ × ℝ × ℝ) : ℝ × ℝ × ℝ × ℝ :=
  let p := rgb2hsvP c
  let s := stepG p.1 c.1
  (mixG p.1 c.1 s, mixG p.2.1 p.2.1 s, mixG p.2.2.2 p.2.2.1 s, mixG c.1 p.1 s)

/-- `d = q.x - min(q.w, q.y)` — the chroma. -/
def hsvChroma (c : ℝ × ℝ × ℝ) : ℝ :=
  (rgb2hsvQ c).1 - min (rgb2hsvQ c).2.2.2 (rgb2hsvQ c).2.1

/-- `e = 1.0e-10`. -/
def hsvEps : ℝ := 1e-10

/-- The hue division's denominator, `6.0 * d + e`. -/
def hueDenom (c : ℝ × ℝ × ℝ) : ℝ := 6 * hsvChroma c + hsvEps

/-- The saturation division's denominator, `q.x + e`. -/
def satDenom (c : ℝ × ℝ × ℝ) : ℝ := (rgb2hsvQ c).1 + hsvEps

/-- `rgb2hsv`: returns `(hue, saturation, value)`. -/
def rgb2hsv (c : ℝ × ℝ × ℝ) : ℝ × ℝ × ℝ :=
  let q := rgb2hsvQ c
  (|q.2.2.1 + (q.2.2.2 - q.2.1) / hueDenom c|, hsvChroma c / satDenom c, q.1)

/-- `hsv2rgb` with `K = vec4(1.0, 2.0/3.0, 1.0/3.0, 3.0)`. -/
def hsv2rgb (c : ℝ × ℝ × ℝ) : ℝ × ℝ × ℝ :=
  let px := |fract (c.1 + 1) * 6 - 3|
  let py := |fract (c.1 + 2 / 3) * 6 - 3|
  let pz := |fract (c.1 + 1 / 3) * 6 - 3|
  (c.2.2 * mixG 1 (clampG (px - 1) 0 1) c.2.1,
   c.2.2 * mixG 1 (clampG (py - 1) 0 1) c.2.1,
   c.2.2 * mixG 1 (clampG (pz - 1) 0 1) c.2.1)

/-! ## Final composition (src/script.js lines 284-300) -/

/-- `targetHue = 0.33`. -/
def targetHue : ℝ := 0.33

/-- The hue after the convergence step,
`hsv.x = mix(hsv.x, targetHue, uConv * growthPhase * 0.8)`. -/
def convergedHue (c : ℝ × ℝ × ℝ) (conv growth : ℝ) : ℝ :=
  mixG (rgb2hsv c).1 targetHue (conv * growth * 0.8)

/-- The aura color after the hue-convergence step. -/
def convergedColor (c : ℝ × ℝ × ℝ) (conv growth : ℝ) : ℝ × ℝ × ℝ :=
  hsv2rgb (convergedHue c conv growth, (rgb2hsv c).2.1, (rgb2hsv c).2.2)

/-- The compositor as written in the code: hue convergence, then
`brightness = uCore + lockPhase * 0.5`, `bodyColor = texColor.rgb * brightness`,
`finalColor = mix(auraColor * auraAlpha, bodyColor, alpha)`,
`finalAlpha = max(auraAlpha, alpha)`. -/
def composite (texRGB : ℝ × ℝ × ℝ) (alpha : ℝ) (auraColor : ℝ × ℝ × ℝ)
    (auraAlpha : ℝ) (P : Params) (t : ℝ) : (ℝ × ℝ × ℝ) × ℝ :=
  let ac := convergedColor auraColor P.uConv (growthPhase t)
  let brightness := P.uCore + lockPhase t * 0.5
  let body := (texRGB.1 * brightness, texRGB.2.1 * brightness, texRGB.2.2 * brightness)
  let fa := (ac.1 * auraAlpha, ac.2.1 * auraAlpha, ac.2.2 * auraAlpha)
  ((mixG fa.1 body.1 alpha, mixG fa.2.1 body.2.1 alpha, mixG fa.2.2 body.2.2 alpha),
   max auraAlpha alpha)

/-- Modelled from the spec's overlay policy, for comparison with `composite`:
`finalColor = lerp(auraColor*auraAlpha, sourceColor*brightness, sourceAlpha)`
with `brightness = coreBrightness + 0.5 * lockPhase`, and
`finalAlpha = max(auraAlpha, sourceAlpha)`. -/
def overlayPolicy (auraColor : ℝ × ℝ × ℝ) (auraAlpha : ℝ) (srcColor : ℝ × ℝ × ℝ)
    (srcAlpha coreB lockP : ℝ) : (ℝ × ℝ × ℝ) × ℝ :=
  let b := coreB + 0.5 * lockP
  ((mixG (auraColor.1 * auraAlpha) (srcColor.1 * b) srcAlpha,
    mixG (auraColor.2.1 * auraAlpha) (srcColor.2.1 * b) srcAlpha,
    mixG (auraColor.2.2 * auraAlpha) (srcColor.2.2 * b) srcAlpha),
   max auraAlpha srcAlpha)

/-! ## The Basic/Fade branch of src/unnamed/part_001 (lines 183-196): same
accumulation loop as src/script.js, followed by
`auraAlpha = clamp(auraAlpha - alpha * 1.5, 0.0, 1.0)`. -/

def part001BasicAuraAlpha (texA : TexA) (P : Params) (uv : ℝ × ℝ) (t : ℝ) : ℝ :=
  clampG (basicAuraAlpha texA P uv t - texA uv * 1.5) 0 1

/-! ## Sampling a mask along a physical direction (for the angular-wraparound
claim): the pixel lying at radius `r` and angle `θ` from the image center. -/

def maskAtPolar (uType : ℤ) (texA : TexA) (P : Params) (r θ t : ℝ) : ℝ :=
  auraAlphaOf uType texA P (0.5 + r * Real.cos θ, 0.5 + r * Real.sin θ) t

/-! ## Lemmas about the accumulation loops -/

theorem foldl_add_const (l : List ℕ) (c : ℝ) : ∀ acc : ℝ,
    List.foldl (fun s _ => s + c) acc l = acc + l.length * c := by
  induction l with
  | nil => intro acc; simp
  | cons x xs ih =>
    intro acc
    simp only [List.foldl_cons, List.length_cons, ih]
    push_cast
    ring

theorem foldl_add_mem (g : ℕ → ℝ) (l : List ℕ) (h : ∀ i ∈ l, 0 ≤ g i ∧ g i ≤ 1) :
    ∀ acc : ℝ, acc ≤ List.foldl (fun s i => s + g i) acc l ∧
      List.foldl (fun s i => s + g i) acc l ≤ acc + l.length := by
  induction l with
  | nil => intro acc; simp
  | cons x xs ih =>
    intro acc
    have hx := h x (List.mem_cons_self x xs)
    have ihx := ih (fun i hi => h i (List.mem_cons_of_mem x hi)) (acc + g x)
    simp only [List.foldl_cons, List.length_cons]
    constructor
    · linarith [ihx.1]
    · push_cast
      linarith [ihx.2]

theorem foldl_max_le (g : ℕ → ℝ) (l : List ℕ) (B : ℝ) (h : ∀ i ∈ l, g i ≤ B) :
    ∀ acc : ℝ, acc ≤ B → List.foldl (fun m i => max m (g i)) acc l ≤ B := by
  induction l with
  | nil => intro acc hacc; simpa using hacc
  | cons x xs ih =>
    intro acc hacc
    have hx := h x (List.mem_cons_self x xs)
    simp only [List.foldl_cons]
    exact ih (fun i hi => h i (List.mem_cons_of_mem x hi)) _ (max_le hacc hx)

theorem le_foldl_max_acc (g : ℕ → ℝ) (l : List ℕ) : ∀ acc : ℝ,
    acc ≤ List.foldl (fun m i => max m (g i)) acc l := by
  induction l with
  | nil => intro acc; simp
  | cons x xs ih =>
    intro acc
    simp only [List.foldl_cons]
    exact le_trans (le_max_left acc (g x)) (ih _)

theorem le_foldl_max_of_mem (g : ℕ → ℝ) (l : List ℕ) {j : ℕ} (hj : j ∈ l) :
    ∀ acc : ℝ, g j ≤ List.foldl (fun m i => max m (g i)) acc l := by
  induction l with
  | nil => cases hj
  | cons x xs ih =>
    intro acc
    rcases List.mem_cons.mp hj with h | h
    · subst h
      simp only [List.foldl_cons]
      exact le_trans (le_max_right acc (g j)) (le_foldl_max_acc g xs _)
    · simp only [List.foldl_cons]
      exact ih h _

/-! ## Monotonicity and endpoints of `smoothstep` -/

theorem hermite_mono {a b : ℝ} (h0 : 0 ≤ a) (hab : a ≤ b) (h1 : b ≤ 1) :
    a * a * (3 - 2 * a) ≤ b * b * (3 - 2 * b) := by
  have ha1 : a ≤ 1 := le_trans hab h1
  have hb0 : 0 ≤ b := le_trans h0 hab
  have key : 0 ≤ (b - a) * (a * (1 - a) + b * (1 - b) + (a + b) * (2 - a - b)) := by
    apply mul_nonneg (by linarith)
    have k1 : 0 ≤ a * (1 - a) := mul_nonneg h0 (by linarith)
    have k2 : 0 ≤ b * (1 - b) := mul_nonneg hb0 (by linarith)
    have k3 : 0 ≤ (a + b) * (2 - a - b) := mul_nonneg (by linarith) (by linarith)
    linarith
  nlinarith [key]

theorem clampG01_mono {x y : ℝ} (h : x ≤ y) : clampG x 0 1 ≤ clampG y 0 1 := by
  unfold clampG
  exact min_le_min (max_le_max h le_rfl) le_rfl

theorem smoothstepG_mono {e0 e1 : ℝ} (he : e0 < e1) {x y : ℝ} (hxy : x ≤ y) :
    smoothstepG e0 e1 x ≤ smoothstepG e0 e1 y := by
  unfold smoothstepG
  have hdiv : (x - e0) / (e1 - e0) ≤ (y - e0) / (e1 - e0) :=
    div_le_div_of_nonneg_right (by linarith) (by linarith) |>.trans_eq rfl
  have hcx := clampG_mem ((x - e0) / (e1 - e0)) 0 1 (by norm_num)
  have hcy := clampG_mem ((y - e0) / (e1 - e0)) 0 1 (by norm_num)
  exact hermite_mono hcx.1 (clampG01_mono hdiv) hcy.2

/-! ## Range bounds for the five mask generators -/

theorem basicAuraAlpha_mem (texA : TexA) (P : Params) (uv : ℝ × ℝ) (t : ℝ)
    (htex : ∀ q, 0 ≤ texA q ∧ texA q ≤ 1) :
    0 ≤ basicAuraAlpha texA P uv t ∧ basicAuraAlpha texA P uv t ≤ 1 := by
  have h := foldl_add_mem
    (fun i => texA (uv.1 + (basicOffset P uv t i).1, uv.2 + (basicOffset P uv t i).2))
    (List.range 12) (fun i _ => htex _) 0
  simp only [List.length_range] at h
  unfold basicAuraAlpha
  constructor
  · exact div_nonneg h.1 (by norm_num)
  · rw [div_le_one (by norm_num)]
    have := h.2
    norm_num at this ⊢
    linarith

theorem fadeAuraAlpha_mem (texA : TexA) (P : Params) (uv : ℝ × ℝ) (t : ℝ)
    (htex : ∀ q, 0 ≤ texA q ∧ texA q ≤ 1) :
    0 ≤ fadeAuraAlpha texA P uv t ∧ fadeAuraAlpha texA P uv t ≤ 1 := by
  have hb := basicAuraAlpha_mem texA P uv t htex
  have hs := smoothstepG_mem (0.2 + (Real.sin (activeTime t) + 1) * 0.5 * 0.5) 0.8
    (basicAuraAlpha texA P uv t + fbm (uv.1 * 10, uv.2 * 10 - activeTime t * 0.5) * 0.3)
  unfold fadeAuraAlpha
  exact ⟨mul_nonneg hb.1 hs.1, mul_le_one hb.2 hs.1 hs.2⟩

theorem flameAuraAlpha_mem (texA : TexA) (P : Params) (uv : ℝ × ℝ) (t : ℝ)
    (hS : 0 ≤ P.uStrength) :
    0 ≤ flameAuraAlpha texA P uv t ∧ flameAuraAlpha texA P uv t ≤ P.uStrength := by
  have hs := smoothstepG_mem 0.1 0.9
    (smoothstepG 0.1 0.6 (flameBorder texA P uv t) * fbm ((flameQ P uv t).1 * 10, (flameQ P uv t).2 * 2))
  unfold flameAuraAlpha
  exact ⟨mul_nonneg hs.1 hS, mul_le_of_le_one_left hS hs.2⟩

theorem dropCircle_mem (P : Params) (uv : ℝ × ℝ) (t : ℝ) (i : ℕ) :
    0 ≤ dropCircle P uv t i ∧ dropCircle P uv t i ≤ 1 := by
  have h1 := smoothstepG_mem (P.uDropSize * 0.15 * (1.2 - dropCycle P t i))
    (P.uDropSize * 0.15 * (1.2 - dropCycle P t i) - 0.01) (distance2 uv (dropPos P t i))
  have h2 := smoothstepG_mem 1 0.8 (dropCycle P t i)
  unfold dropCircle
  exact ⟨mul_nonneg h1.1 h2.1, mul_le_one h1.2 h2.1 h2.2⟩

theorem dropsAlpha_mem (P : Params) (uv : ℝ × ℝ) (t : ℝ) :
    0 ≤ dropsAlpha P uv t ∧ dropsAlpha P uv t ≤ 1 := by
  unfold dropsAlpha
  constructor
  · exact le_foldl_max_acc _ _ 0
  · exact foldl_max_le (fun i => dropCircle P uv t i) (List.range NUM_DROPS) 1
      (fun i _ => (dropCircle_mem P uv t i).2) 0 (by norm_num)

theorem dropletAuraAlpha_mem (texA : TexA) (P : Params) (uv : ℝ × ℝ) (t : ℝ)
    (hS : 0 ≤ P.uStrength) :
    0 ≤ dropletAuraAlpha texA P uv t ∧
      dropletAuraAlpha texA P uv t ≤ max 0.2 P.uStrength := by
  have hbg := smoothstepG_mem 0.1 0.8 (List.foldl
    (fun m i => max m (texA (uv.1 + Real.cos ((i : ℝ) * 6.28318 / 8) * P.uAuraSize,
                             uv.2 + Real.sin ((i : ℝ) * 6.28318 / 8) * P.uAuraSize)))
    0 (List.range 8))
  have hd := dropsAlpha_mem P uv t
  unfold dropletAuraAlpha
  constructor
  · exact le_trans (mul_nonneg hbg.1 (by norm_num)) (le_max_left _ _)
  · apply max_le_max
    · nlinarith [hbg.2]
    · exact mul_le_of_le_one_left hS hd.2

/-- Shared bound for the Ripple product `mist * dirMask * uStrength * (1 - alpha)`. -/
theorem ripple_product_bound {m d s a : ℝ} (hm0 : 0 ≤ m) (hm : m ≤ 2.5)
    (hd0 : 0 ≤ d) (hd : d ≤ 1) (hs : 0 ≤ s) (ha0 : 0 ≤ a) (ha : a ≤ 1) :
    0 ≤ m * d * s * a ∧ m * d * s * a ≤ 2.5 * s := by
  constructor
  · exact mul_nonneg (mul_nonneg (mul_nonneg hm0 hd0) hs) ha0
  · have h1 : m * d ≤ 2.5 := le_trans (mul_le_of_le_one_right hm0 hd) hm
    have h2 : m * d * s ≤ 2.5 * s := mul_le_mul_of_nonneg_right h1 hs
    have h3 : m * d * s * a ≤ m * d * s :=
      mul_le_of_le_one_right (mul_nonneg (mul_nonneg hm0 hd0) hs) ha
    linarith

theorem rippleAuraAlpha_mem (texA : TexA) (P : Params) (uv : ℝ × ℝ) (t : ℝ)
    (htex : ∀ q, 0 ≤ texA q ∧ texA q ≤ 1) (hS : 0 ≤ P.uStrength) :
    0 ≤ rippleAuraAlpha texA P uv t ∧
      rippleAuraAlpha texA P uv t ≤ 2.5 * P.uStrength := by
  have hbM := smoothstepG_mem 0.1 0.5 (rippleBorder texA P uv)
  have hd1 := smoothstepG_mem 0.4 0.5
    (fract (radiusOf uv * (10 / P.uDropSize) - activeTime t * P.uDropSpeed * 3))
  have hd2 := smoothstepG_mem 0.6 0.5
    (fract (radiusOf uv * (10 / P.uDropSize) - activeTime t * P.uDropSpeed * 3))
  have hfD := fbm_mem (normAngle uv * 10,
    (radiusOf uv * (10 / P.uDropSize) - activeTime t * P.uDropSpeed * 3) * 0.5)
  have hfD1 : fbm (normAngle uv * 10,
      (radiusOf uv * (10 / P.uDropSize) - activeTime t * P.uDropSpeed * 3) * 0.5) ≤ 1 := by
    have := hfD.2; norm_num at this ⊢; linarith
  have hdir : (0:ℝ) ≤ (if 0.1 < length2 P.uDropDir then
        smoothstepG 0 0.5 (dot2 (normalize2 (toCenter uv)) (normalize2 P.uDropDir))
      else 1) ∧ (if 0.1 < length2 P.uDropDir then
        smoothstepG 0 0.5 (dot2 (normalize2 (toCenter uv)) (normalize2 P.uDropDir))
      else 1) ≤ 1 := by
    split
    · exact smoothstepG_mem 0 0.5 _
    · norm_num
  have ha := htex uv
  have hshape0 : (0:ℝ) ≤ smoothstepG 0.4 0.5
      (fract (radiusOf uv * (10 / P.uDropSize) - activeTime t * P.uDropSpeed * 3)) *
      smoothstepG 0.6 0.5
      (fract (radiusOf uv * (10 / P.uDropSize) - activeTime t * P.uDropSpeed * 3)) :=
    mul_nonneg hd1.1 hd2.1
  have hshape : smoothstepG 0.4 0.5
      (fract (radiusOf uv * (10 / P.uDropSize) - activeTime t * P.uDropSpeed * 3)) *
      smoothstepG 0.6 0.5
      (fract (radiusOf uv * (10 / P.uDropSize) - activeTime t * P.uDropSpeed * 3)) ≤ 1 :=
    mul_le_one hd1.2 hd2.1 hd2.2
  have hm0 : (0:ℝ) ≤ smoothstepG 0.1 0.5 (rippleBorder texA P uv) *
      (smoothstepG 0.4 0.5 (fract (radiusOf uv * (10 / P.uDropSize) - activeTime t * P.uDropSpeed * 3)) *
       smoothstepG 0.6 0.5 (fract (radiusOf uv * (10 / P.uDropSize) - activeTime t * P.uDropSpeed * 3))) *
      fbm (normAngle uv * 10, (radiusOf uv * (10 / P.uDropSize) - activeTime t * P.uDropSpeed * 3) * 0.5) *
      2.5 :=
    mul_nonneg (mul_nonneg (mul_nonneg hbM.1 hshape0) hfD.1) (by norm_num)
  have hm1 : smoothstepG 0.1 0.5 (rippleBorder texA P uv) *
      (smoothstepG 0.4 0.5 (fract (radiusOf uv * (10 / P.uDropSize) - activeTime t * P.uDropSpeed * 3)) *
       smoothstepG 0.6 0.5 (fract (radiusOf uv * (10 / P.uDropSize) - activeTime t * P.uDropSpeed * 3))) *
      fbm (normAngle uv * 10, (radiusOf uv * (10 / P.uDropSize) - activeTime t * P.uDropSpeed * 3) * 0.5) *
      2.5 ≤ 2.5 := by
    have s1 : smoothstepG 0.1 0.5 (rippleBorder texA P uv) *
        (smoothstepG 0.4 0.5 (fract (radiusOf uv * (10 / P.uDropSize) - activeTime t * P.uDropSpeed * 3)) *
         smoothstepG 0.6 0.5 (fract (radiusOf uv * (10 / P.uDropSize) - activeTime t * P.uDropSpeed * 3))) ≤ 1 :=
      mul_le_one hbM.2 hshape0 hshape
    have s2 : smoothstepG 0.1 0.5 (rippleBorder texA P uv) *
        (smoothstepG 0.4 0.5 (fract (radiusOf uv * (10 / P.uDropSize) - activeTime t * P.uDropSpeed * 3)) *
         smoothstepG 0.6 0.5 (fract (radiusOf uv * (10 / P.uDropSize) - activeTime t * P.uDropSpeed * 3))) *
        fbm (normAngle uv * 10, (radiusOf uv * (10 / P.uDropSize) - activeTime t * P.uDropSpeed * 3) * 0.5) ≤ 1 :=
      mul_le_one s1 hfD.1 hfD1
    nlinarith
  have key := ripple_product_bound hm0 hm1 hdir.1 hdir.2 hS
    (by linarith [ha.2] : (0:ℝ) ≤ 1 - texA uv) (by linarith [ha.1] : 1 - texA uv ≤ 1)
  exact key

/-! ## Timeline endpoint helpers -/

theorem lockPhase_eq_one {t : ℝ} (h : 62 ≤ t) : lockPhase t = 1 := by
  unfold lockPhase smoothstepG
  have hx : (1:ℝ) ≤ (t - 60) / (62 - 60) := by
    rw [le_div_iff (by norm_num)]
    linarith
  have hc : clampG ((t - 60) / (62 - 60)) 0 1 = 1 := by
    unfold clampG
    rw [max_eq_left (by linarith), min_eq_right hx]
  rw [hc]
  norm_num

/-! ## Claim theorems -/

/-- C3: the timeline driver satisfies `growthPhase(0) = 0`, `growthPhase(8) = 1`,
monotone non-decreasing on `[0,8]`; `lockPhase` behaves identically over
`[60,62]`; `activeTime t = t * (1 - 0.95 * lockPhase t)`, and once
`lockPhase = 1` (every `t ≥ 62`) `activeTime` advances at exactly `0.05`
times real time. -/
theorem timeline_phases :
    growthPhase 0 = 0 ∧ growthPhase 8 = 1 ∧
    (∀ t₁ t₂ : ℝ, 0 ≤ t₁ → t₁ ≤ t₂ → t₂ ≤ 8 → growthPhase t₁ ≤ growthPhase t₂) ∧
    lockPhase 60 = 0 ∧ lockPhase 62 = 1 ∧
    (∀ t₁ t₂ : ℝ, 60 ≤ t₁ → t₁ ≤ t₂ → t₂ ≤ 62 → lockPhase t₁ ≤ lockPhase t₂) ∧
    (∀ t : ℝ, activeTime t = t * (1 - 0.95 * lockPhase t)) ∧
    (∀ t : ℝ, 62 ≤ t → activeTime t = 0.05 * t) := by
  refine ⟨?_, ?_, ?_, ?_, ?_, ?_, ?_, ?_⟩
  · unfold growthPhase smoothstepG clampG
    norm_num
  · unfold growthPhase smoothstepG clampG
    norm_num
  · intro t₁ t₂ _ h _
    exact smoothstepG_mono (by norm_num) h
  · unfold lockPhase smoothstepG clampG
    norm_num
  · exact lockPhase_eq_one le_rfl
  · intro t₁ t₂ _ h _
    exact smoothstepG_mono (by norm_num) h
  · intro t
    unfold activeTime
    ring
  · intro t ht
    unfold activeTime
    rw [lockPhase_eq_one ht]
    ring

/-- C3 witness: the monotonicity hypotheses and the post-lock rate at concrete
times. -/
theorem timeline_phases_witness :
    growthPhase 2 ≤ growthPhase 3 ∧ activeTime 100 = 0.05 * 100 :=
  ⟨timeline_phases.2.2.1 2 3 (by norm_num) (by norm_num) (by norm_num),
   timeline_phases.2.2.2.2.2.2.2 100 (by norm_num)⟩

/-- C4: for every coordinate, `noise` lies in `[0,1]` and `fbm` (5 octaves,
initial amplitude 0.5, amplitude halved and frequency doubled per octave)
lies in `[0, 1 - 0.5^5] = [0, 0.96875]`. -/
theorem noise_fbm_range (p : ℝ × ℝ) :
    (0 ≤ noise p ∧ noise p ≤ 1) ∧ (0 ≤ fbm p ∧ fbm p ≤ 1 - (1 / 2) ^ 5) :=
  ⟨noise_mem p, fbm_mem p⟩

/-- C5: the compositor computes exactly the spec's overlay policy
`finalColor = lerp(auraColor*auraAlpha, sourceColor*(coreBrightness + 0.5*lockPhase), sourceAlpha)`,
`finalAlpha = max(auraAlpha, sourceAlpha)`, applied to the hue-converged aura
color — the source image is drawn on top of the aura. -/
theorem composite_is_overlay (texRGB : ℝ × ℝ × ℝ) (alpha : ℝ)
    (auraColor : ℝ × ℝ × ℝ) (auraAlpha : ℝ) (P : Params) (t : ℝ) :
    composite texRGB alpha auraColor auraAlpha P t =
      overlayPolicy (convergedColor auraColor P.uConv (growthPhase t)) auraAlpha
        texRGB alpha P.uCore (lockPhase t) := by
  unfold composite overlayPolicy
  simp only [Prod.mk.injEq]
  refine ⟨⟨?_, ?_, ?_⟩, trivial⟩ <;> ring_nf

/-- C8: sampling any effect mask at angle 0 and at angle 2π (the same physical
direction at the same radius) gives values that differ by at most any epsilon
— in fact they coincide exactly, because the shader derives the angle from the
pixel position and `cos`/`sin` are exactly 2π-periodic. -/
theorem mask_angle_wraparound (uType : ℤ) (texA : TexA) (P : Params) (r t : ℝ) :
    maskAtPolar uType texA P r 0 t = maskAtPolar uType texA P r (2 * Real.pi) t := by
  unfold maskAtPolar
  rw [Real.cos_two_pi, Real.sin_two_pi, Real.cos_zero, Real.sin_zero]

/-- C10: the `uType` dispatch is total: any selector other than 1, 4, 2 falls
through to the final else and produces the Basic aura, with the Fade erosion
exactly when `uType = 3`; any unknown selector (5, -1, ...) behaves
identically to type 0. -/
theorem dispatch_total (u : ℤ) (texA : TexA) (P : Params) (uv : ℝ × ℝ) (t : ℝ)
    (h1 : u ≠ 1) (h2 : u ≠ 2) (h4 : u ≠ 4) :
    (auraAlphaOf u texA P uv t =
      if u = 3 then fadeAuraAlpha texA P uv t else basicAuraAlpha texA P uv t) ∧
    (u ≠ 3 → auraAlphaOf u texA P uv t = auraAlphaOf 0 texA P uv t) := by
  constructor
  · unfold auraAlphaOf
    simp [h1, h2, h4]
  · intro h3
    unfold auraAlphaOf
    simp [h1, h2, h3, h4]

/-- C10 witness: the unknown selector 5 produces the type-0 aura at a concrete
input. -/
theorem dispatch_total_witness :
    auraAlphaOf 5 (fun _ => 0) defaultParams (0, 0) 0 =
      auraAlphaOf 0 (fun _ => 0) defaultParams (0, 0) 0 :=
  (dispatch_total 5 (fun _ => 0) defaultParams (0, 0) 0
    (by decide) (by decide) (by decide)).2 (by decide)

/-- The script.js defaults with the Strength slider at its UI maximum 2.0. -/
def strongParams : Params :=
  ⟨0.20, 2.0, 0.5, 0.3, 0.5, 1.0, 0.5, 0.5, 1.0, 0.5, (0.0, 1.0)⟩

/-- C1 (amended): with an in-range texture and nonnegative strength, every
branch alpha is nonnegative (hence never NaN/∞ in the real-valued model);
Basic and Fade stay in `[0,1]`, but Flame, Ripple, and Droplet are only
bounded by multiples of `uStrength` and may exceed 1. -/
theorem mask_alpha_bounds (texA : TexA) (P : Params) (uv : ℝ × ℝ) (t : ℝ)
    (htex : ∀ q, 0 ≤ texA q ∧ texA q ≤ 1) (hS : 0 ≤ P.uStrength) :
    (0 ≤ basicAuraAlpha texA P uv t ∧ basicAuraAlpha texA P uv t ≤ 1) ∧
    (0 ≤ fadeAuraAlpha texA P uv t ∧ fadeAuraAlpha texA P uv t ≤ 1) ∧
    (0 ≤ flameAuraAlpha texA P uv t ∧ flameAuraAlpha texA P uv t ≤ P.uStrength) ∧
    (0 ≤ rippleAuraAlpha texA P uv t ∧ rippleAuraAlpha texA P uv t ≤ 2.5 * P.uStrength) ∧
    (0 ≤ dropletAuraAlpha texA P uv t ∧
      dropletAuraAlpha texA P uv t ≤ max 0.2 P.uStrength) :=
  ⟨basicAuraAlpha_mem texA P uv t htex, fadeAuraAlpha_mem texA P uv t htex,
   flameAuraAlpha_mem texA P uv t hS, rippleAuraAlpha_mem texA P uv t htex hS,
   dropletAuraAlpha_mem texA P uv t hS⟩

/-- C1 witness: the bounds at a concrete texture, parameter set, pixel and
time. -/
theorem mask_alpha_bounds_witness :
    0 ≤ basicAuraAlpha (fun _ => 0.5) defaultParams (0.3, 0.4) 1 ∧
      basicAuraAlpha (fun _ => 0.5) defaultParams (0.3, 0.4) 1 ≤ 1 :=
  (mask_alpha_bounds (fun _ => 0.5) defaultParams (0.3, 0.4) 1
    (fun _ => ⟨by norm_num, by norm_num⟩) (by norm_num [defaultParams])).1

/-- C1 counterexample: with the fully opaque texture, strength 2 (the UI
maximum), pixel at the image center and time 0, the Droplet branch alpha is
strictly greater than 1 — the claim that every branch's alpha lies in `[0,1]`
for all parameter combinations is false. -/
theorem droplet_alpha_exceeds_one :
    1 < dropletAuraAlpha (fun _ => 1) strongParams (0.5, 0.5) 0 := by
  have ht : dropT strongParams 0 0 = 0 := by
    unfold dropT dropSeed activeTime
    norm_num
  have hcycle : dropCycle strongParams 0 0 = 0 := by
    unfold dropCycle fract
    rw [ht]
    exact Int.fract_zero
  have hidx : dropCycleIdx strongParams 0 0 = 0 := by
    unfold dropCycleIdx
    rw [ht]
    exact Int.floor_zero
  have hangle : dropRndAngle strongParams 0 0 = 0 := by
    unfold dropRndAngle
    rw [hidx]
    unfold dropSeed hash dot2 fract
    norm_num [Real.sin_zero, Int.fract_zero]
  have hpos : dropPos strongParams 0 0 = (0.5, 0.5) := by
    unfold dropPos
    rw [hangle, hcycle]
    simp [Real.cos_zero, Real.sin_zero]
  have hd : distance2 (0.5, 0.5) (dropPos strongParams 0 0) = 0 := by
    rw [hpos]
    unfold distance2 length2
    norm_num [Real.sqrt_zero]
  have hcirc : dropCircle strongParams (0.5, 0.5) 0 0 = 1 := by
    unfold dropCircle
    rw [hd, hcycle]
    unfold smoothstepG clampG strongParams
    norm_num [max_def, min_def]
  have hdrops : 1 ≤ dropsAlpha strongParams (0.5, 0.5) 0 := by
    have hmem : (0 : ℕ) ∈ List.range NUM_DROPS := by
      unfold NUM_DROPS
      exact List.mem_range.mpr (by norm_num)
    have h := le_foldl_max_of_mem
      (fun i => dropCircle strongParams (0.5, 0.5) 0 i) (List.range NUM_DROPS) hmem 0
    unfold dropsAlpha
    calc (1:ℝ) = dropCircle strongParams (0.5, 0.5) 0 0 := hcirc.symm
      _ ≤ _ := h
  have hstep : (2:ℝ) ≤ dropsAlpha strongParams (0.5, 0.5) 0 * strongParams.uStrength := by
    have hs : strongParams.uStrength = 2 := by norm_num [strongParams]
    rw [hs]
    linarith
  unfold dropletAuraAlpha
  exact lt_of_lt_of_le (by norm_num : (1:ℝ) < 2) (le_trans hstep (le_max_right _ _))

/-- C2 (amended): the hue-convergence step moves the hue only
`conv * growth * 0.8` of the way to the target: the residual distance to the
target hue is scaled by `1 - conv * growth * 0.8`, so at `conv = growth = 1`
a fifth of the original offset remains, and the output hue equals 0.33 only
when the input hue was already 0.33. -/
theorem convergedHue_partial (c : ℝ × ℝ × ℝ) (conv growth : ℝ) :
    convergedHue c conv growth - targetHue =
      (1 - conv * growth * 0.8) * ((rgb2hsv c).1 - targetHue) := by
  unfold convergedHue mixG
  ring

/-- C2 counterexample: with convergence parameter 1 and growthPhase 1, the
flame palette color `vec3(1.0, 0.3, 0.0)` (hue ≈ 0.05) is mapped to hue
≈ 0.274, not to the target hue 0.33 — the convergence factor is 0.8, not 1. -/
theorem convergedHue_not_target :
    convergedHue (1, 0.3, 0) 1 1 ≠ targetHue := by
  have hq : rgb2hsvQ (1, 0.3, 0) = (1, 0, 0, 0.3) := by
    unfold rgb2hsvQ rgb2hsvP stepG mixG
    norm_num
  have hch : hsvChroma (1, 0.3, 0) = 1 := by
    unfold hsvChroma
    rw [hq]
    norm_num [min_def]
  have hh : (rgb2hsv (1, 0.3, 0)).1 = 0.3 / (6 + 1e-10) := by
    unfold rgb2hsv hueDenom hsvEps
    rw [hq, hch]
    norm_num [abs_of_nonneg]
  have hsmall : (rgb2hsv (1, 0.3, 0)).1 ≤ 0.06 := by
    rw [hh]
    norm_num
  unfold convergedHue targetHue mixG
  intro heq
  linarith

/-- C6 (amended): in src/script.js the droplet pool has 10 particles (not 15);
each particle's cycle is `fract(activeTime * uDropSpeed + seed_i)`; its random
angle is a pure function of `(seed_i, floor(activeTime * uDropSpeed + seed_i))`
— equal floor buckets give the identical angle, and when the bucket changes
the angle is re-drawn from the hash at the new bucket, differing whenever the
two hash values differ. -/
theorem droplet_pool (P : Params) :
    NUM_DROPS = 10 ∧
    (∀ (t : ℝ) (i : ℕ),
      dropCycle P t i = fract (activeTime t * P.uDropSpeed + dropSeed i)) ∧
    (∀ (t₁ t₂ : ℝ) (i : ℕ), dropCycleIdx P t₁ i = dropCycleIdx P t₂ i →
      dropRndAngle P t₁ i = dropRndAngle P t₂ i) ∧
    (∀ (t₁ t₂ : ℝ) (i : ℕ),
      hash (dropSeed i, (dropCycleIdx P t₁ i : ℝ)) ≠
        hash (dropSeed i, (dropCycleIdx P t₂ i : ℝ)) →
      dropRndAngle P t₁ i ≠ dropRndAngle P t₂ i) := by
  refine ⟨rfl, fun t i => rfl, ?_, ?_⟩
  · intro t₁ t₂ i h
    unfold dropRndAngle
    rw [h]
  · intro t₁ t₂ i h hc
    apply h
    unfold dropRndAngle at hc
    exact mul_right_cancel₀ (by norm_num) hc

/-- C6 witness: particle 0's angle is identical at times 0 and 0.5 (both in
floor bucket 0 with the default drop speed). -/
theorem droplet_pool_witness :
    dropRndAngle defaultParams 0 0 = dropRndAngle defaultParams 0.5 0 := by
  apply (droplet_pool defaultParams).2.2.1 0 0.5 0
  unfold dropCycleIdx dropT dropSeed activeTime lockPhase smoothstepG clampG defaultParams
  norm_num

/-- C6 counterexample: the droplet loop of src/script.js iterates over 10
particles, not the 15 the claim states. -/
theorem droplet_pool_size : NUM_DROPS = 10 ∧ NUM_DROPS ≠ 15 := ⟨rfl, by decide⟩

/-- The script.js defaults with the aura-size slider at 0. -/
def zeroSizeParams : Params :=
  ⟨0.0, 1.5, 0.5, 0.3, 0.5, 1.0, 0.5, 0.5, 1.0, 0.5, (0.0, 1.0)⟩

/-- C7 (amended): over a fully opaque source image, the part_001 Basic/Fade
branch (which subtracts `alpha * 1.5` before clamping) produces aura alpha
exactly 0, also at aura-size 0; the script.js Basic branch has no source-alpha
subtraction and instead produces aura alpha 1 there. -/
theorem opaque_source_aura (texA : TexA) (P : Params) (uv : ℝ × ℝ) (t : ℝ)
    (htex : ∀ q, texA q = 1) (hsize : P.uAuraSize = 0) :
    part001BasicAuraAlpha texA P uv t = 0 ∧ basicAuraAlpha texA P uv t = 1 := by
  have htx : texA = fun _ => 1 := funext htex
  subst htx
  have hb : basicAuraAlpha (fun _ => 1) P uv t = 1 := by
    show (List.foldl (fun (s : ℝ) (_ : ℕ) => s + 1) 0 (List.range 12)) / 12 = 1
    rw [foldl_add_const (List.range 12) 1]
    norm_num
  refine ⟨?_, hb⟩
  unfold part001BasicAuraAlpha
  rw [hb]
  unfold clampG
  norm_num [max_def, min_def]

/-- C7 witness: both conclusions at the opaque texture, aura-size 0, the
center pixel and time 0. -/
theorem opaque_source_aura_witness :
    part001BasicAuraAlpha (fun _ => 1) zeroSizeParams (0.5, 0.5) 0 = 0 ∧
      basicAuraAlpha (fun _ => 1) zeroSizeParams (0.5, 0.5) 0 = 1 :=
  opaque_source_aura (fun _ => 1) zeroSizeParams (0.5, 0.5) 0 (fun _ => rfl)
    (by norm_num [zeroSizeParams])

/-- C7 counterexample: with source alpha 1 everywhere and aura-size 0, the
script.js Basic branch produces aura alpha 1 — not approximately 0: every
offset sample still lands inside the opaque image, and the branch never
subtracts the source alpha. -/
theorem basic_alpha_opaque_not_zero :
    basicAuraAlpha (fun _ => 1) zeroSizeParams (0.5, 0.5) 0 = 1 ∧
      ¬ basicAuraAlpha (fun _ => 1) zeroSizeParams (0.5, 0.5) 0 ≤ 0.1 := by
  have hb : basicAuraAlpha (fun _ => 1) zeroSizeParams (0.5, 0.5) 0 = 1 := by
    show (List.foldl (fun (s : ℝ) (_ : ℕ) => s + 1) 0 (List.range 12)) / 12 = 1
    rw [foldl_add_const (List.range 12) 1]
    norm_num
  refine ⟨hb, ?_⟩
  rw [hb]
  norm_num

/-- C9 (amended): both denominators of `rgb2hsv` are bounded below by the
epsilon `1e-10` for every color with nonnegative channels (including pure
grays and black); the hue denominator is so bounded for every real color,
since the chroma is nonnegative unconditionally. In this real-valued model
the divisions are therefore never by zero. -/
theorem rgb2hsv_total (c : ℝ × ℝ × ℝ) :
    hsvEps ≤ hueDenom c ∧
      (0 ≤ c.1 → 0 ≤ c.2.1 → 0 ≤ c.2.2 → hsvEps ≤ satDenom c) := by
  obtain ⟨r, g, b⟩ := c
  constructor
  · unfold hueDenom hsvChroma rgb2hsvQ rgb2hsvP stepG mixG hsvEps
    split_ifs <;> norm_num [min_le_iff] <;> split_ifs <;>
      norm_num [min_le_iff] <;> left <;> linarith
  · intro hr hg hb
    have hr2 : 0 ≤ r := hr
    have hg2 : 0 ≤ g := hg
    have hb2 : 0 ≤ b := hb
    unfold satDenom rgb2hsvQ rgb2hsvP stepG mixG hsvEps
    split_ifs <;> norm_num <;> split_ifs <;> norm_num <;> linarith

/-- C9 witness: both denominators at pure black, the hardest in-gamut input. -/
theorem rgb2hsv_total_witness :
    hsvEps ≤ hueDenom (0, 0, 0) ∧ hsvEps ≤ satDenom (0, 0, 0) :=
  ⟨(rgb2hsv_total (0, 0, 0)).1, (rgb2hsv_total (0, 0, 0)).2 le_rfl le_rfl le_rfl⟩

/-- C9 counterexample: the claim quantifies over every real-valued input
color, but at the (out-of-gamut) color with all channels `-1e-10` the
saturation denominator `q.x + e` is exactly 0, so it is not bounded away from
zero by the epsilon and the saturation division is a division by zero. -/
theorem satDenom_zero :
    satDenom (-(1e-10), -(1e-10), -(1e-10)) = 0 ∧
      ¬ hsvEps ≤ satDenom (-(1e-10), -(1e-10), -(1e-10)) := by
  have h : satDenom (-(1e-10), -(1e-10), -(1e-10)) = 0 := by
    unfold satDenom rgb2hsvQ rgb2hsvP stepG mixG hsvEps
    norm_num
  refine ⟨h, ?_⟩
  rw [h]
  unfold hsvEps
  norm_num

end TaraAura
